import Mathlib

/-!
Verification of `amazon_item_lookup.py` (AmazonProductWPPageGenerator).

The Python module has two core operations:

* `AmazonItemLookup.gen_item_lookup_request_url` — builds a signed
  Product Advertising API lookup URL (sorted query string, HMAC-SHA256
  signature, base64, percent-encoding);
* `AmazonItemLookup.parse_item_response` — normalizes the parsed XML
  response (an `xmltodict` nested-dict tree) into a fixed-shape record.

This file shallowly embeds both.  Python dict/list/str values produced by
`xmltodict.parse` are modelled by `XVal`; Python runtime exceptions
(`KeyError`, `TypeError`, `AttributeError`, `IndexError`) are modelled by
an `Except PyErr` monad.  The wall-clock timestamp of the signer is made
an explicit argument.  All definitions are executable.
-/

set_option autoImplicit false

/-- Value in the tree produced by `xmltodict.parse`: a string, an ordered
dict (association list, keys in document order), or a list of repeated
elements. -/
inductive XVal where
  | str (s : String)
  | dict (d : List (String × XVal))
  | list (l : List XVal)

/-- Python runtime errors that the parsing code can raise. -/
inductive PyErr where
  | keyError (k : String)
  | typeError
  | attrError
  | indexError
deriving DecidableEq, Repr

/-- Python `v == some_string`: true only for an equal `str`. -/
def XVal.isStr : XVal → String → Bool
  | .str t, s => t == s
  | _, _ => false

/-- Python `d[k]` subscripting with a string key: `KeyError` when the key
is missing from a dict, `TypeError` when the value is a list or a string
(string indices must be integers). -/
def getItem : XVal → String → Except PyErr XVal
  | .dict d, k =>
    match d.lookup k with
    | some v => .ok v
    | none => .error (.keyError k)
  | _, _ => .error .typeError

/-- Python `k in v` membership test: key membership on a dict, element
equality on a list, substring test on a string. -/
def hasKey : XVal → String → Bool
  | .dict d, k => d.any (fun p => p.1 == k)
  | .list l, k => l.any (fun x => x.isStr k)
  | .str s, k => decide (k.data <:+: s.data)

/-- Python `d.get(k, default)`: only dicts have `.get`; anything else
raises `AttributeError`. -/
def getDefault : XVal → String → XVal → Except PyErr XVal
  | .dict d, k, dflt =>
    match d.lookup k with
    | some v => .ok v
    | none => .ok dflt
  | _, _, _ => .error .attrError

/-- Python truthiness of a tree value: empty string / dict / list are
falsy, everything else is truthy. -/
def pyTruthy : XVal → Bool
  | .str s => !(s == "")
  | .dict d => !d.isEmpty
  | .list l => !l.isEmpty

mutual

/-- Python `repr` of a tree value (used by `str` on containers): strings
quoted, dicts and lists rendered with their delimiters. -/
def pyRepr : XVal → String
  | .str s => "'" ++ s ++ "'"
  | .dict d => "\x7b" ++ String.intercalate ", " (pyReprPairs d) ++ "\x7d"
  | .list l => "[" ++ String.intercalate ", " (pyReprList l) ++ "]"

/-- Renders each `'key': repr(value)` entry of a dict. -/
def pyReprPairs : List (String × XVal) → List String
  | [] => []
  | (k, v) :: rest => ("'" ++ k ++ "': " ++ pyRepr v) :: pyReprPairs rest

/-- Renders each element of a list. -/
def pyReprList : List XVal → List String
  | [] => []
  | v :: rest => pyRepr v :: pyReprList rest

end

/-- Python `str` of a tree value: the string itself for strings,
`repr`-style rendering for containers (as `print` / `format` would). -/
def pyStr : XVal → String
  | .str s => s
  | v => pyRepr v

/-- Python `l[0]`: `IndexError` on an empty list. -/
def pyIndex0 : List XVal → Except PyErr XVal
  | [] => .error .indexError
  | x :: _ => .ok x

/-- Chained subscripting `v[k1][k2]…` along a path of keys. -/
def dig (v : XVal) (path : List String) : Except PyErr XVal :=
  path.foldlM getItem v

/-- One image entry of the parsed record (`parsed['images'][size]`).
The source assigns raw tree values into these slots, so the fields are
`XVal`; the defaults are the empty strings from the default structure. -/
structure ImageRec where
  height : XVal := .str ""
  width : XVal := .str ""
  url : XVal := .str ""

/-- The `parsed['item_attributes']['item_dimensions']` sub-dict; always
assigned formatted strings by the source. -/
structure DimsRec where
  height : String := ""
  length : String := ""
  weight : String := ""
  width : String := ""

/-- The `parsed['item_attributes']` sub-dict.  `model` is added by the
source at assignment time (line 186); its default is the empty string it
gets when `Model` is absent. -/
structure AttrsRec where
  title : XVal := .str ""
  manufacturer : XVal := .str ""
  model : XVal := .str ""
  size : XVal := .str ""
  warranty : XVal := .str ""
  item_dimensions : DimsRec := {}
  features : List XVal := []

/-- The full `parsed` dict built by `parse_item_response`. -/
structure ParsedRec where
  item_attributes : AttrsRec := {}
  url : XVal := .str ""
  images_small : ImageRec := {}
  images_medium : ImageRec := {}
  images_large : ImageRec := {}
  sales_rank : XVal := .str ""
  price : XVal := .str ""
  description : XVal := .str ""

/-- Result of `parse_item_response`: either the empty dict returned on an
invalid lookup (`printed` is the error text written to stdout just before
the `return {}`), or the populated record. -/
inductive POut where
  | emptyDict (printed : String)
  | parsed (p : ParsedRec)

/-- Python `'{} ({})'.format(tx, un)` used for the dimension fields. -/
def fmtDim (tx un : XVal) : String :=
  pyStr tx ++ " (" ++ pyStr un ++ ")"

/-- Embedding of the valid-request path of
`AmazonItemLookup.parse_item_response` (`amazon_item_lookup.py` lines
120–221), one statement per source line and in source order; Python
exceptions are values of `PyErr`. -/
def parse_valid_item (result : XVal) : Except PyErr POut := do
    -- line 120
    let item ← dig result ["ItemLookupResponse", "Items", "Item"]
    -- lines 123–158: default structure
    let p : ParsedRec := {}
    -- lines 160–165: the `else` is attached to `if 'Feature' in ...`, so a
    -- single (non-list) Feature adds nothing and an absent Feature is
    -- subscripted anyway
    let attrs ← getItem item "ItemAttributes"
    let p ←
      if hasKey attrs "Feature" then do
        let f ← getItem attrs "Feature"
        match f with
        | .list l =>
          pure { p with item_attributes :=
            { p.item_attributes with features := p.item_attributes.features ++ l } }
        | _ => pure p
      else do
        let f ← getItem attrs "Feature"
        pure { p with item_attributes :=
          { p.item_attributes with features := p.item_attributes.features ++ [f] } }
    -- lines 168–181
    let idim ← getDefault attrs "ItemDimensions" (.dict [])
    let p ←
      if pyTruthy idim then do
        let p ←
          if hasKey idim "Height" then do
            let h ← getItem idim "Height"
            let tx ← getItem h "#text"
            let un ← getItem h "@Units"
            pure { p with item_attributes := { p.item_attributes with
              item_dimensions := { p.item_attributes.item_dimensions with
                height := fmtDim tx un } } }
          else pure p
        let p ←
          if hasKey idim "Length" then do
            let h ← getItem idim "Length"
            let tx ← getItem h "#text"
            let un ← getItem h "@Units"
            pure { p with item_attributes := { p.item_attributes with
              item_dimensions := { p.item_attributes.item_dimensions with
                length := fmtDim tx un } } }
          else pure p
        let p ←
          if hasKey idim "Weight" then do
            let h ← getItem idim "Weight"
            let tx ← getItem h "#text"
            let un ← getItem h "@Units"
            pure { p with item_attributes := { p.item_attributes with
              item_dimensions := { p.item_attributes.item_dimensions with
                weight := fmtDim tx un } } }
          else pure p
        let p ←
          if hasKey idim "Width" then do
            let h ← getItem idim "Width"
            let tx ← getItem h "#text"
            let un ← getItem h "@Units"
            pure { p with item_attributes := { p.item_attributes with
              item_dimensions := { p.item_attributes.item_dimensions with
                width := fmtDim tx un } } }
          else pure p
        pure p
      else pure p
    -- lines 184–188
    let title ← getDefault attrs "Title" (.str "")
    let manufacturer ← getDefault attrs "Manufacturer" (.str "")
    let model ← getDefault attrs "Model" (.str "")
    let size ← getDefault attrs "Size" (.str "")
    let warranty ← getDefault attrs "Warranty" (.str "")
    let p := { p with item_attributes := { p.item_attributes with
      title := title, manufacturer := manufacturer, model := model,
      size := size, warranty := warranty } }
    -- line 190
    let urlv ← getDefault item "DetailPageURL" (.str "")
    let p := { p with url := urlv }
    -- lines 193–196
    let p ←
      if hasKey item "SmallImage" then do
        let si ← getItem item "SmallImage"
        let h ← getItem si "Height"
        let ht ← getItem h "#text"
        let w ← getItem si "Width"
        let wt ← getItem w "#text"
        let u ← getItem si "URL"
        pure { p with images_small := { height := ht, width := wt, url := u } }
      else pure p
    -- lines 198–201: height and width are read from SmallImage (sic)
    let p ←
      if hasKey item "MediumImage" then do
        let si ← getItem item "SmallImage"
        let h ← getItem si "Height"
        let ht ← getItem h "#text"
        let w ← getItem si "Width"
        let wt ← getItem w "#text"
        let mi ← getItem item "MediumImage"
        let u ← getItem mi "URL"
        pure { p with images_medium := { height := ht, width := wt, url := u } }
      else pure p
    -- lines 203–206
    let p ←
      if hasKey item "LargeImage" then do
        let li ← getItem item "LargeImage"
        let h ← getItem li "Height"
        let ht ← getItem h "#text"
        let w ← getItem li "Width"
        let wt ← getItem w "#text"
        let u ← getItem li "URL"
        pure { p with images_large := { height := ht, width := wt, url := u } }
      else pure p
    -- line 208
    let sr ← getDefault item "SalesRank" (.str "")
    let p := { p with sales_rank := sr }
    -- lines 211–212
    let p ←
      if hasKey item "OfferSummary" then do
        let os ← getItem item "OfferSummary"
        if hasKey os "LowestNewPrice" then do
          let os2 ← getItem item "OfferSummary"
          let lnp ← getItem os2 "LowestNewPrice"
          let pr ← getDefault lnp "FormattedPrice" (.str "")
          pure { p with price := pr }
        else pure p
      else pure p
    -- lines 215–219: the list branch stores the raw first element
    let p ←
      if hasKey item "EditorialReviews" then do
        let er ← getItem item "EditorialReviews"
        match er with
        | .list l => do
          let d ← pyIndex0 l
          pure { p with description := d }
        | _ => do
          let e ← getItem er "EditorialReview"
          let c ← getItem e "Content"
          pure { p with description := c }
      else pure p
    -- line 221
    return .parsed p

/-- Shallow embedding of `AmazonItemLookup.parse_item_response`
(`amazon_item_lookup.py` lines 75–221): the validity check and
invalid-lookup handling of lines 113–118, then the extraction path of
lines 120–221 (`parse_valid_item`). -/
def parse_item_response (result : XVal) : Except PyErr POut := do
  -- line 113: result['ItemLookupResponse']['Items']['Request']['IsValid'] == 'False'
  let isvalid ← dig result ["ItemLookupResponse", "Items", "Request", "IsValid"]
  if isvalid.isStr "False" then
    -- lines 114–118: try/except KeyError around printing the error message
    match dig result ["ItemLookupResponse", "Items", "Request", "Errors", "Error", "Message"] with
    | .ok v => return .emptyDict (pyStr v)
    | .error (.keyError _) => return .emptyDict "Error: Invalid lookup!"
    | .error e => throw e
  else
    parse_valid_item result

/-- Response document whose request echo is valid and whose item carries a
single (non-repeated) `Feature` element and nothing else. -/
def docSingleFeature : XVal :=
  .dict [("ItemLookupResponse", .dict [("Items", .dict [
    ("Request", .dict [("IsValid", .str "True")]),
    ("Item", .dict [("ItemAttributes", .dict [("Feature", .str "Fast")])])])])]

/-- Response document whose item carries a three-element repeated
`Feature` list. -/
def docFeatureList : XVal :=
  .dict [("ItemLookupResponse", .dict [("Items", .dict [
    ("Request", .dict [("IsValid", .str "True")]),
    ("Item", .dict [("ItemAttributes", .dict [("Feature",
      .list [.str "f1", .str "f2", .str "f3"])])])])])]

/-- Response document whose item has an `ItemAttributes` element with no
`Feature` at all. -/
def docNoFeature : XVal :=
  .dict [("ItemLookupResponse", .dict [("Items", .dict [
    ("Request", .dict [("IsValid", .str "True")]),
    ("Item", .dict [("ItemAttributes", .dict [("Title", .str "T")])])])])]

/-- Minimal valid response: only the mandatory validity flag and an item
with no sub-elements at all. -/
def docMinimal : XVal :=
  .dict [("ItemLookupResponse", .dict [("Items", .dict [
    ("Request", .dict [("IsValid", .str "True")]),
    ("Item", .dict [])])])]

/-- Invalid-lookup response carrying an embedded error message. -/
def docInvalidWithMessage : XVal :=
  .dict [("ItemLookupResponse", .dict [("Items", .dict [
    ("Request", .dict [
      ("IsValid", .str "False"),
      ("Errors", .dict [("Error", .dict [
        ("Code", .str "AWS.InvalidParameterValue"),
        ("Message", .str "Item not found")])])])])])]

/-- Invalid-lookup response with no errors sub-section. -/
def docInvalidNoMessage : XVal :=
  .dict [("ItemLookupResponse", .dict [("Items", .dict [
    ("Request", .dict [("IsValid", .str "False")])])])]

/-- Valid response whose item has both a small and a medium image with
distinct dimensions (plus a `Feature` list so that the feature block does
not raise). -/
def docBothImages : XVal :=
  .dict [("ItemLookupResponse", .dict [("Items", .dict [
    ("Request", .dict [("IsValid", .str "True")]),
    ("Item", .dict [
      ("ItemAttributes", .dict [("Feature", .list [.str "f1"])]),
      ("SmallImage", .dict [
        ("URL", .str "http://img/small.jpg"),
        ("Height", .dict [("@Units", .str "pixels"), ("#text", .str "30")]),
        ("Width", .dict [("@Units", .str "pixels"), ("#text", .str "31")])]),
      ("MediumImage", .dict [
        ("URL", .str "http://img/medium.jpg"),
        ("Height", .dict [("@Units", .str "pixels"), ("#text", .str "50")]),
        ("Width", .dict [("@Units", .str "pixels"), ("#text", .str "51")])])])])])]

/-- Valid response whose item has a medium image but no small image. -/
def docMediumOnly : XVal :=
  .dict [("ItemLookupResponse", .dict [("Items", .dict [
    ("Request", .dict [("IsValid", .str "True")]),
    ("Item", .dict [
      ("ItemAttributes", .dict [("Feature", .list [.str "f1"])]),
      ("MediumImage", .dict [
        ("URL", .str "http://img/medium.jpg"),
        ("Height", .dict [("@Units", .str "pixels"), ("#text", .str "50")]),
        ("Width", .dict [("@Units", .str "pixels"), ("#text", .str "51")])])])])])]

/-- Valid response whose `EditorialReviews` element is repeated, i.e. a
two-element list in the tree. -/
def docReviewList : XVal :=
  .dict [("ItemLookupResponse", .dict [("Items", .dict [
    ("Request", .dict [("IsValid", .str "True")]),
    ("Item", .dict [
      ("ItemAttributes", .dict [("Feature", .list [.str "f1"])]),
      ("EditorialReviews", .list [
        .dict [("EditorialReview", .dict [("Source", .str "Product Description"),
          ("Content", .str "Great cable")])],
        .dict [("EditorialReview", .dict [("Source", .str "Amazon"),
          ("Content", .str "Second review")])]])])])])]

/-- Valid response whose `EditorialReviews` element occurs once (a single
block in the tree). -/
def docReviewSingle : XVal :=
  .dict [("ItemLookupResponse", .dict [("Items", .dict [
    ("Request", .dict [("IsValid", .str "True")]),
    ("Item", .dict [
      ("ItemAttributes", .dict [("Feature", .list [.str "f1"])]),
      ("EditorialReviews", .dict [("EditorialReview", .dict [
        ("Source", .str "Product Description"),
        ("Content", .str "Great cable")])])])])])]

/-- Record that `parse_item_response` produces on `docBothImages`: the
medium entry carries the small image's 30×31 dimensions. -/
def expectedBothImages : ParsedRec where
  item_attributes := { features := [.str "f1"] }
  images_small :=
    { height := .str "30", width := .str "31", url := .str "http://img/small.jpg" }
  images_medium :=
    { height := .str "30", width := .str "31", url := .str "http://img/medium.jpg" }

/-- Record that `parse_item_response` produces on `docReviewList`: the
description slot holds the raw first element of the repeated container,
not its content string. -/
def expectedReviewList : ParsedRec where
  item_attributes := { features := [.str "f1"] }
  description := .dict [("EditorialReview", .dict [
    ("Source", .str "Product Description"), ("Content", .str "Great cable")])]

/-- Record that `parse_item_response` produces on `docReviewSingle`. -/
def expectedReviewSingle : ParsedRec where
  item_attributes := { features := [.str "f1"] }
  description := .str "Great cable"

/-- Record that `parse_item_response` produces on `docFeatureList`. -/
def expectedFeatureList : ParsedRec where
  item_attributes := { features := [.str "f1", .str "f2", .str "f3"] }

/-- C2: the claim says a repeated feature element yields one entry per
occurrence, a single occurrence yields a 1-element sequence, and absence
yields the empty sequence.  On the code, only the repeated case holds: a
single (non-list) `Feature` leaves `features` empty, and an absent
`Feature` raises `KeyError` because the `else` of lines 160–165 is
attached to the outer presence test.  This theorem evaluates all three
cases of the source on concrete documents. -/
theorem parse_feature_cases :
    parse_item_response docFeatureList = .ok (.parsed expectedFeatureList) ∧
    expectedFeatureList.item_attributes.features = [.str "f1", .str "f2", .str "f3"] ∧
    parse_item_response docSingleFeature = .ok (.parsed {}) ∧
    (({} : ParsedRec)).item_attributes.features = [] ∧
    parse_item_response docNoFeature = .error (.keyError "Feature") :=
  ⟨rfl, rfl, rfl, rfl, rfl⟩

/-- C3: the claim says a minimal valid document (validity flag plus an
item with no optional sub-elements) normalizes to the all-defaults record
without error.  The code instead raises `KeyError 'ItemAttributes'` at
line 161, so no record is produced. -/
theorem parse_minimal_raises :
    parse_item_response docMinimal = .error (.keyError "ItemAttributes") :=
  rfl

/-- C4: whenever the request echo's `IsValid` flag reads `'False'`, the
normalizer signals the upstream error and returns the empty dict without
any field extraction; the signalled message is the embedded
`Errors/Error/Message` text when that path exists, and the generic
invalid-lookup text when the path is missing (`KeyError`). -/
theorem parse_invalid_raises (doc : XVal)
    (hflag : dig doc ["ItemLookupResponse", "Items", "Request", "IsValid"] =
      .ok (.str "False")) :
    (∀ m : String,
      dig doc ["ItemLookupResponse", "Items", "Request", "Errors", "Error", "Message"] =
        .ok (.str m) →
      parse_item_response doc = .ok (.emptyDict m)) ∧
    (∀ k : String,
      dig doc ["ItemLookupResponse", "Items", "Request", "Errors", "Error", "Message"] =
        .error (.keyError k) →
      parse_item_response doc = .ok (.emptyDict "Error: Invalid lookup!")) := by
  constructor
  · intro m hm
    simp [parse_item_response, hflag, hm, XVal.isStr, pyStr, Bind.bind,
      Except.bind, pure, Except.pure]
  · intro k hk
    simp [parse_item_response, hflag, hk, XVal.isStr, Bind.bind, Except.bind,
      pure, Except.pure]

/-- C4 witness: instantiating the invalid-lookup theorem on the concrete
document embedding the message `Item not found`, and on the concrete
document with no errors section. -/
theorem parse_invalid_raises_witness :
    parse_item_response docInvalidWithMessage = .ok (.emptyDict "Item not found") ∧
    parse_item_response docInvalidNoMessage = .ok (.emptyDict "Error: Invalid lookup!") :=
  ⟨(parse_invalid_raises docInvalidWithMessage rfl).1 "Item not found" rfl,
   (parse_invalid_raises docInvalidNoMessage rfl).2 "Errors" rfl⟩

/-- C6: the claim says each image entry copies its own element's height,
width and URL.  The small and large branches do, but the medium branch
(source lines 198–201) reads `SmallImage`'s height and width: on a
document whose small image is 30×31 and whose medium image is 50×51, the
medium entry comes out as 30×31 with the medium URL. -/
theorem parse_medium_image_copies_small :
    parse_item_response docBothImages = .ok (.parsed expectedBothImages) ∧
    expectedBothImages.images_medium.height = .str "30" ∧
    expectedBothImages.images_medium.width = .str "31" ∧
    XVal.str "30" ≠ XVal.str "50" ∧ XVal.str "31" ≠ XVal.str "51" :=
  ⟨rfl, rfl, rfl,
   fun h => absurd (XVal.str.inj h) (by decide),
   fun h => absurd (XVal.str.inj h) (by decide)⟩

/-- C7: the claim says that when the editorial-review container is a
repeated list, `description` is the content string of the first entry.
The code (source line 217) stores the raw first element instead — here
the whole `\x7b'EditorialReview': ...\x7d` subtree — while the
single-block branch does return the plain content string. -/
theorem parse_description_cases :
    parse_item_response docReviewList = .ok (.parsed {
      item_attributes := { features := [.str "f1"] },
      description := .dict [("EditorialReview", .dict [
        ("Source", .str "Product Description"),
        ("Content", .str "Great cable")])] }) ∧
    XVal.dict [("EditorialReview", .dict [
        ("Source", .str "Product Description"),
        ("Content", .str "Great cable")])] ≠ .str "Great cable" ∧
    parse_item_response docReviewSingle = .ok (.parsed {
      item_attributes := { features := [.str "f1"] },
      description := .str "Great cable" }) :=
  ⟨rfl, fun h => XVal.noConfusion h, rfl⟩

/-- C10: a structurally valid document that reports a valid request and
contains a medium image but no small image makes the normalizer raise
`KeyError 'SmallImage'` (the medium-image branch reads the small image's
height and width), instead of returning a record. -/
theorem parse_medium_without_small_keyerror :
    parse_item_response docMediumOnly = .error (.keyError "SmallImage") ∧
    (dig docMediumOnly ["ItemLookupResponse", "Items", "Item"]).map
      (fun it => hasKey it "MediumImage") = .ok true ∧
    (dig docMediumOnly ["ItemLookupResponse", "Items", "Item"]).map
      (fun it => hasKey it "SmallImage") = .ok false ∧
    dig docMediumOnly ["ItemLookupResponse", "Items", "Request", "IsValid"] =
      .ok (.str "True") :=
  ⟨rfl, rfl, rfl, rfl⟩

/-- UTF-8 encoding of one character (Python 2 `str` values are byte
strings; all byte-level operations below work on these bytes). -/
def charUtf8 (c : Char) : List Nat :=
  let n := c.toNat
  if n < 128 then [n]
  else if n < 2048 then [192 + n / 64, 128 + n % 64]
  else if n < 65536 then [224 + n / 4096, 128 + (n / 64) % 64, 128 + n % 64]
  else [240 + n / 262144, 128 + (n / 4096) % 64, 128 + (n / 64) % 64, 128 + n % 64]

/-- Byte sequence of a string. -/
def strBytes (s : String) : List Nat :=
  (s.data.map charUtf8).flatten

/-- Rotates a 32-bit word right by `n` positions. -/
def rotr32 (n x : Nat) : Nat :=
  ((x >>> n) ||| (x <<< (32 - n))) % 4294967296

/-- SHA-256 `Ch` function. -/
def shaCh (e f g : Nat) : Nat :=
  (e &&& f) ^^^ ((e ^^^ 4294967295) &&& g)

/-- SHA-256 `Maj` function. -/
def shaMaj (a b c : Nat) : Nat :=
  (a &&& b) ^^^ (a &&& c) ^^^ (b &&& c)

/-- SHA-256 `Σ0`. -/
def bigSigma0 (a : Nat) : Nat :=
  rotr32 2 a ^^^ rotr32 13 a ^^^ rotr32 22 a

/-- SHA-256 `Σ1`. -/
def bigSigma1 (e : Nat) : Nat :=
  rotr32 6 e ^^^ rotr32 11 e ^^^ rotr32 25 e

/-- SHA-256 `σ0`. -/
def smallSigma0 (x : Nat) : Nat :=
  rotr32 7 x ^^^ rotr32 18 x ^^^ (x >>> 3)

/-- SHA-256 `σ1`. -/
def smallSigma1 (x : Nat) : Nat :=
  rotr32 17 x ^^^ rotr32 19 x ^^^ (x >>> 10)

/-- SHA-256 round constants (FIPS 180-4), written in decimal. -/
def shaK : List Nat :=
  [1116352408, 1899447441, 3049323471, 3921009573, 961987163,
   1508970993, 2453635748, 2870763221, 3624381080, 310598401,
   607225278, 1426881987, 1925078388, 2162078206, 2614888103,
   3248222580, 3835390401, 4022224774, 264347078, 604807628,
   770255983, 1249150122, 1555081692, 1996064986, 2554220882,
   2821834349, 2952996808, 3210313671, 3336571891, 3584528711,
   113926993, 338241895, 666307205, 773529912, 1294757372,
   1396182291, 1695183700, 1986661051, 2177026350, 2456956037,
   2730485921, 2820302411, 3259730800, 3345764771, 3516065817,
   3600352804, 4094571909, 275423344, 430227734, 506948616,
   659060556, 883997877, 958139571, 1322822218, 1537002063,
   1747873779, 1955562222, 2024104815, 2227730452, 2361852424,
   2428436474, 2756734187, 3204031479, 3329325298]

/-- SHA-256 initial hash value (FIPS 180-4), written in decimal. -/
def shaH0 : List Nat :=
  [1779033703, 3144134277, 1013904242, 2773480762,
   1359893119, 2600822924, 528734635, 1541459225]

/-- Working state of the SHA-256 compression loop. -/
structure Sha8 where
  a : Nat
  b : Nat
  c : Nat
  d : Nat
  e : Nat
  f : Nat
  g : Nat
  h : Nat

/-- One SHA-256 round, consuming a `(round constant, schedule word)`
pair. -/
def shaStep (s : Sha8) (kw : Nat × Nat) : Sha8 :=
  let t1 := (s.h + bigSigma1 s.e + shaCh s.e s.f s.g + kw.1 + kw.2) % 4294967296
  let t2 := (bigSigma0 s.a + shaMaj s.a s.b s.c) % 4294967296
  { a := (t1 + t2) % 4294967296, b := s.a, c := s.b, d := s.c,
    e := (s.d + t1) % 4294967296, f := s.e, g := s.f, h := s.g }

/-- Extends a 16-word block by `k` schedule words. -/
def shaExtend : List Nat → Nat → List Nat
  | w, 0 => w
  | w, k + 1 =>
    let n := w.length
    let x := (smallSigma1 (w.getD (n - 2) 0) + w.getD (n - 7) 0 +
      smallSigma0 (w.getD (n - 15) 0) + w.getD (n - 16) 0) % 4294967296
    shaExtend (w ++ [x]) k

/-- SHA-256 compression of one 16-word block into the chaining value. -/
def shaCompress (hs block : List Nat) : List Nat :=
  let w := shaExtend block 48
  let s0 : Sha8 :=
    { a := hs.getD 0 0, b := hs.getD 1 0, c := hs.getD 2 0, d := hs.getD 3 0,
      e := hs.getD 4 0, f := hs.getD 5 0, g := hs.getD 6 0, h := hs.getD 7 0 }
  let s := (shaK.zip w).foldl shaStep s0
  [(hs.getD 0 0 + s.a) % 4294967296, (hs.getD 1 0 + s.b) % 4294967296,
   (hs.getD 2 0 + s.c) % 4294967296, (hs.getD 3 0 + s.d) % 4294967296,
   (hs.getD 4 0 + s.e) % 4294967296, (hs.getD 5 0 + s.f) % 4294967296,
   (hs.getD 6 0 + s.g) % 4294967296, (hs.getD 7 0 + s.h) % 4294967296]

/-- Big-endian bytes of a 32-bit word. -/
def wordBytes (w : Nat) : List Nat :=
  [(w >>> 24) % 256, (w >>> 16) % 256, (w >>> 8) % 256, w % 256]

/-- Big-endian 8-byte encoding of the bit length. -/
def beBytes8 (n : Nat) : List Nat :=
  [(n >>> 56) % 256, (n >>> 48) % 256, (n >>> 40) % 256, (n >>> 32) % 256,
   (n >>> 24) % 256, (n >>> 16) % 256, (n >>> 8) % 256, n % 256]

/-- SHA-256 padding: `0x80`, zeros to 56 mod 64, 8-byte bit length. -/
def shaPad (msg : List Nat) : List Nat :=
  msg ++ [128] ++ List.replicate ((119 - msg.length % 64) % 64) 0 ++
    beBytes8 (msg.length * 8)

/-- Packs bytes into big-endian 32-bit words (input length a multiple of
four, as guaranteed by the padding). -/
def bytesToWords : List Nat → List Nat
  | a :: b :: c :: d :: rest =>
    (((a * 256 + b) * 256 + c) * 256 + d) :: bytesToWords rest
  | _ => []

/-- Splits a padded word sequence into 16-word blocks. -/
def toBlocks : List Nat → List (List Nat)
  | w0 :: w1 :: w2 :: w3 :: w4 :: w5 :: w6 :: w7 ::
    w8 :: w9 :: w10 :: w11 :: w12 :: w13 :: w14 :: w15 :: rest =>
    [w0, w1, w2, w3, w4, w5, w6, w7, w8, w9, w10, w11, w12, w13, w14, w15] ::
      toBlocks rest
  | _ => []

/-- SHA-256 digest (32 bytes) of a byte sequence. -/
def sha256 (msg : List Nat) : List Nat :=
  let hs := (toBlocks (bytesToWords (shaPad msg))).foldl shaCompress shaH0
  (hs.map wordBytes).flatten

/-- HMAC-SHA256 (`hmac.new(key, msg, hashlib.sha256).digest()`). -/
def hmacSha256 (key msg : List Nat) : List Nat :=
  let k0 := if key.length > 64 then sha256 key else key
  let kp := k0 ++ List.replicate (64 - k0.length) 0
  sha256 ((kp.map (fun b => b ^^^ 92)) ++
    sha256 ((kp.map (fun b => b ^^^ 54)) ++ msg))

/-- Character of one 6-bit group in the standard base64 alphabet. -/
def b64Char (n : Nat) : Char :=
  if n < 26 then Char.ofNat (65 + n)
  else if n < 52 then Char.ofNat (97 + (n - 26))
  else if n < 62 then Char.ofNat (48 + (n - 52))
  else if n = 62 then '+'
  else '/'

/-- Base64 characters of a byte sequence, with `=` padding. -/
def b64Chars : List Nat → List Char
  | [] => []
  | [a] => [b64Char (a / 4), b64Char (a % 4 * 16), '=', '=']
  | [a, b] => [b64Char (a / 4), b64Char (a % 4 * 16 + b / 16), b64Char (b % 16 * 4), '=']
  | a :: b :: c :: rest =>
    b64Char (a / 4) :: b64Char (a % 4 * 16 + b / 16) ::
      b64Char (b % 16 * 4 + c / 64) :: b64Char (c % 64) :: b64Chars rest

/-- Base64 lines of successive 57-byte pieces of the input, each line
followed by a newline; `fuel` bounds the recursion and is instantiated
with the input length (one chunk consumes at least one byte). -/
def b64Lines : Nat → List Nat → String
  | _, [] => ""
  | 0, _ => ""
  | fuel + 1, bs =>
    String.mk (b64Chars (bs.take 57)) ++ "\n" ++ b64Lines fuel (bs.drop 57)

/-- Python 2 `base64.encodestring`: base64-encode successive 57-byte
pieces of the input, each output line followed by a newline. -/
def py_encodestring (bs : List Nat) : String :=
  b64Lines bs.length bs

/-- Python whitespace test (`str.strip()` default set). -/
def isPyWs (c : Char) : Bool :=
  c == ' ' || c == '\t' || c == '\n' || c == '\r' || c == '\x0b' || c == '\x0c'

/-- Python `str.strip()` of the base64 text (removes surrounding
whitespace; here the trailing newline). -/
def pyStripWs (s : String) : String :=
  String.mk (((s.data.dropWhile isPyWs).reverse.dropWhile isPyWs).reverse)

/-- Hexadecimal digit character, uppercase (as `urllib.quote` emits). -/
def hexDigit (n : Nat) : Char :=
  if n < 10 then Char.ofNat (48 + n) else Char.ofNat (55 + n)

/-- Percent-encoding of one byte under Python 2 `urllib.quote_plus` with
its default safe set: alphanumerics and `_.-` kept, space becomes `+`,
everything else `%XX`. -/
def quoteByte (b : Nat) : String :=
  if (48 ≤ b ∧ b ≤ 57) ∨ (65 ≤ b ∧ b ≤ 90) ∨ (97 ≤ b ∧ b ≤ 122) ∨
      b = 95 ∨ b = 46 ∨ b = 45 then
    String.mk [Char.ofNat b]
  else if b = 32 then "+"
  else String.mk ['%', hexDigit (b / 16), hexDigit (b % 16)]

/-- Python 2 `urllib.quote_plus(s)` (default safe set). -/
def py_quote_plus (s : String) : String :=
  String.join ((strBytes s).map quoteByte)

/-- Python 2 `urllib.urlencode` on a list of key/value pairs:
`quote_plus(k) + '=' + quote_plus(v)` joined with `&` in list order. -/
def py_urlencode (pairs : List (String × String)) : String :=
  String.intercalate "&" (pairs.map (fun p => py_quote_plus p.1 ++ "=" ++ py_quote_plus p.2))

/-- Byte-wise (ordinal) strict less-than on byte sequences, as Python 2
compares `str` values. -/
def bytesLt : List Nat → List Nat → Bool
  | [], [] => false
  | [], _ :: _ => true
  | _ :: _, [] => false
  | a :: as, b :: bs => if a < b then true else if b < a then false else bytesLt as bs

/-- Byte-wise (ordinal) strict less-than on strings. -/
def strLtBytes (s t : String) : Bool :=
  bytesLt (strBytes s) (strBytes t)

/-- Inserts a key into a byte-wise-sorted list of keys. -/
def insertSorted (k : String) : List String → List String
  | [] => [k]
  | x :: xs => if strLtBytes k x then k :: x :: xs else x :: insertSorted k xs

/-- Python `keys.sort()`: ascending byte-wise sort of the key list. -/
def sortStrs (l : List String) : List String :=
  l.foldr insertSorted []

/-- The `url_params` dict of `gen_item_lookup_request_url` (source lines
35–47) as an association list, with the timestamp entry added last; the
wall-clock `time.strftime(...)` value is the explicit `timestamp`
argument. -/
def url_params (aws_access_key associate_tag item_id timestamp : String) :
    List (String × String) :=
  [("Service", "AWSECommerceService"),
   ("Operation", "ItemLookup"),
   ("AWSAccessKeyId", aws_access_key),
   ("ResponseGroup", "EditorialReview,Images,ItemAttributes,OfferSummary,SalesRank"),
   ("ItemId", item_id),
   ("AssociateTag", associate_tag),
   ("Version", "2013-08-01"),
   ("Timestamp", timestamp)]

/-- Source lines 49–52: `keys = url_params.keys(); keys.sort(); values =
map(url_params.get, keys); zip(keys, values)`. -/
def sortedPairs (aws_access_key associate_tag item_id timestamp : String) :
    List (String × String) :=
  (sortStrs ((url_params aws_access_key associate_tag item_id timestamp).map Prod.fst)).map
    (fun k =>
      (k, (List.lookup k (url_params aws_access_key associate_tag item_id timestamp)).getD ""))

/-- Source line 55: the canonical query string. -/
def canonical_string (aws_access_key associate_tag item_id timestamp : String) : String :=
  py_urlencode (sortedPairs aws_access_key associate_tag item_id timestamp)

/-- Shallow embedding of
`AmazonItemLookup.gen_item_lookup_request_url` (source lines 30–73); the
credentials held on `self` and the `time.strftime` timestamp are explicit
arguments. -/
def gen_item_lookup_request_url
    (aws_access_key aws_secret_key associate_tag item_id timestamp : String) : String :=
  let canonical := canonical_string aws_access_key associate_tag item_id timestamp
  let sts := "GET\nwebservices.amazon.com\n/onca/xml\n" ++ canonical
  let signature := pyStripWs (py_encodestring
    (hmacSha256 (strBytes aws_secret_key) (strBytes sts)))
  let urlencoded_signature := py_quote_plus signature
  "http://webservices.amazon.com/onca/xml?" ++ canonical ++
    "&Signature=" ++ urlencoded_signature

/-- C1: the generated URL is the fixed endpoint, the canonical query
string, and `&Signature=` followed by the percent-encoded base64 HMAC;
the string-to-sign is exactly the four lines `GET`,
`webservices.amazon.com`, `/onca/xml` and the canonical query string
joined by single newlines; the HMAC is SHA-256 keyed by the raw secret
key bytes; and the percent-encoding escapes `+`, `/` and `=`. -/
theorem gen_url_signature_construction
    (aws_access_key aws_secret_key associate_tag item_id timestamp : String) :
    gen_item_lookup_request_url aws_access_key aws_secret_key associate_tag item_id timestamp =
      "http://webservices.amazon.com/onca/xml?" ++
        canonical_string aws_access_key associate_tag item_id timestamp ++
        "&Signature=" ++
        py_quote_plus (pyStripWs (py_encodestring (hmacSha256
          (strBytes aws_secret_key)
          (strBytes ("GET\nwebservices.amazon.com\n/onca/xml\n" ++
            canonical_string aws_access_key associate_tag item_id timestamp))))) ∧
    "GET\nwebservices.amazon.com\n/onca/xml\n" ++
        canonical_string aws_access_key associate_tag item_id timestamp =
      String.intercalate "\n" ["GET", "webservices.amazon.com", "/onca/xml",
        canonical_string aws_access_key associate_tag item_id timestamp] ∧
    py_quote_plus "+" = "%2B" ∧ py_quote_plus "/" = "%2F" ∧ py_quote_plus "=" = "%3D" :=
  ⟨rfl, rfl, rfl, rfl, rfl⟩

/-- C8: the parameter pairs that form the canonical query string appear
in strict ascending byte-wise order of their parameter names. -/
theorem canonical_query_sorted
    (aws_access_key associate_tag item_id timestamp : String) :
    canonical_string aws_access_key associate_tag item_id timestamp =
      py_urlencode (sortedPairs aws_access_key associate_tag item_id timestamp) ∧
    (sortedPairs aws_access_key associate_tag item_id timestamp).map Prod.fst =
      ["AWSAccessKeyId", "AssociateTag", "ItemId", "Operation",
       "ResponseGroup", "Service", "Timestamp", "Version"] ∧
    List.Chain' (fun x y => strLtBytes x y = true)
      ((sortedPairs aws_access_key associate_tag item_id timestamp).map Prod.fst) :=
  ⟨rfl, rfl, by
    rw [show (sortedPairs aws_access_key associate_tag item_id timestamp).map Prod.fst =
      ["AWSAccessKeyId", "AssociateTag", "ItemId", "Operation",
       "ResponseGroup", "Service", "Timestamp", "Version"] from rfl]
    simp only [List.chain'_cons, List.chain'_singleton, and_true]
    decide⟩

/-- C9: the signer is a pure function of credentials, item identifier and
timestamp — two calls on identical inputs give identical URLs. -/
theorem signer_deterministic
    (aws_access_key aws_secret_key associate_tag item_id timestamp : String)
    (u₁ u₂ : String)
    (h₁ : u₁ = gen_item_lookup_request_url aws_access_key aws_secret_key
      associate_tag item_id timestamp)
    (h₂ : u₂ = gen_item_lookup_request_url aws_access_key aws_secret_key
      associate_tag item_id timestamp) :
    u₁ = u₂ :=
  h₁.trans h₂.symm

/-- C9 witness: two calls of the signer on the same concrete credentials,
item id and timestamp are equal. -/
theorem signer_deterministic_witness :
    gen_item_lookup_request_url "ak" "sk" "tag-20" "B00F0RRRCC" "2018-06-24T13:01:10Z" =
    gen_item_lookup_request_url "ak" "sk" "tag-20" "B00F0RRRCC" "2018-06-24T13:01:10Z" :=
  signer_deterministic "ak" "sk" "tag-20" "B00F0RRRCC" "2018-06-24T13:01:10Z" _ _ rfl rfl

set_option maxRecDepth 100000 in
/-- C5 counterexample: with all three credentials empty the signer does
not fail at all — it returns this complete, well-formed signed URL
(there is no credential check and no `ConfigurationError` in the code). -/
theorem empty_credentials_still_sign :
    gen_item_lookup_request_url "" "" "" "B00F0RRRCC" "2018-06-24T13:01:10Z" =
    "http://webservices.amazon.com/onca/xml?AWSAccessKeyId=&AssociateTag=&ItemId=B00F0RRRCC&Operation=ItemLookup&ResponseGroup=EditorialReview%2CImages%2CItemAttributes%2COfferSummary%2CSalesRank&Service=AWSECommerceService&Timestamp=2018-06-24T13%3A01%3A10Z&Version=2013-08-01&Signature=KNlwqJF2b5EePvQpGaf6Og29wzKwl5g2uoyk3Zqxowk%3D" :=
  rfl

/-- C5 amended: the signing operation performs no credential validation;
even with every credential the empty string it succeeds and produces the
standard signed URL shape. -/
theorem empty_credentials_url_shape (item_id timestamp : String) :
    gen_item_lookup_request_url "" "" "" item_id timestamp =
      "http://webservices.amazon.com/onca/xml?" ++
        canonical_string "" "" item_id timestamp ++
        "&Signature=" ++
        py_quote_plus (pyStripWs (py_encodestring (hmacSha256 []
          (strBytes ("GET\nwebservices.amazon.com\n/onca/xml\n" ++
            canonical_string "" "" item_id timestamp))))) :=
  rfl
